import Mathlib

/-!
Verification development for the Minted-mUSD-Canton diagnostic scripts
(`src/scripts/*.py`).  The scripts are shallowly embedded: JSON documents
become an inductive `Json` type, Python dict operations become functions on
association lists, and Python exceptions become `Except Unit`.  Each script's
response-processing logic is translated line by line from the source.
-/

/-- JSON values as decoded by Python's `json.loads`: objects are key/value
association lists in insertion order (Python dicts preserve order and have
unique keys). -/
inductive Json where
  | null
  | bool (b : Bool)
  | num (n : Int)
  | str (s : String)
  | arr (elems : List Json)
  | obj (fields : List (String × Json))

/-- First-match lookup in an object's field list (Python dict key access;
keys are unique, so first match is the match). -/
def lookupField : List (String × Json) → String → Option Json
  | [], _ => none
  | (k, v) :: rest, key => if k = key then some v else lookupField rest key

/-- Python `key in d` for a dict `d`. -/
def hasKeyObj (fs : List (String × Json)) (key : String) : Bool :=
  (lookupField fs key).isSome

/-- Whether a JSON value is the string `s` (Python `==` between a strings-only
needle and an arbitrary element). -/
def jsonIsStr (j : Json) (s : String) : Bool :=
  match j with
  | .str t => t = s
  | _ => false

/-- Substring test on character lists (Python `needle in haystack` for
strings). -/
def listHasInfix (needle : List Char) : List Char → Bool
  | [] => needle.isPrefixOf []
  | c :: rest => needle.isPrefixOf (c :: rest) || listHasInfix needle rest

/-- Python membership `needle in j` for a string needle: key test on dicts,
element test on lists, substring test on strings, `TypeError` otherwise. -/
def pyIn (needle : String) : Json → Except Unit Bool
  | .obj fs => .ok (hasKeyObj fs needle)
  | .arr xs => .ok (xs.any fun j => jsonIsStr j needle)
  | .str s => .ok (listHasInfix needle.data s.data)
  | _ => .error ()

/-- Python `j[key]` for a string key: dict lookup (`KeyError` when absent),
`TypeError` on every non-dict value. -/
def pyIndexStr (j : Json) (key : String) : Except Unit Json :=
  match j with
  | .obj fs =>
    match lookupField fs key with
    | some v => .ok v
    | none => .error ()
  | _ => .error ()

/-- Python `j.get(key, default)`: only dicts have `.get` (`AttributeError`
otherwise). -/
def pyGet (j : Json) (key : String) (default : Json) : Except Unit Json :=
  match j with
  | .obj fs => .ok ((lookupField fs key).getD default)
  | _ => .error ()

/-- Python truthiness of a JSON value (`if not ac: continue`). -/
def pyTruthy : Json → Bool
  | .null => false
  | .bool b => b
  | .num n => n ≠ 0
  | .str s => s ≠ ""
  | .arr xs => !xs.isEmpty
  | .obj fs => !fs.isEmpty

/-- Python `str(list(d.keys()))`, the fallback bucket key of `check-acs.py`:
e.g. `[ 'a', 'b' ]` without the spaces after the bracket. -/
def pyStrKeys (ks : List String) : String :=
  "[" ++ String.intercalate ", " (ks.map fun k => "'" ++ k ++ "'") ++ "]"

/-- Whether a JSON value may be used as a Python dict key (hashable):
scalars yes, lists and dicts no (`TypeError`). -/
def jsonHashable : Json → Bool
  | .arr _ => false
  | .obj _ => false
  | _ => true

/-- Equality test used for counting-dict keys.  Only flat (hashable) values
ever get stored, so structural comparison of scalars suffices. -/
def flatEq : Json → Json → Bool
  | .null, .null => true
  | .bool a, .bool b => a == b
  | .num a, .num b => a == b
  | .str a, .str b => a == b
  | _, _ => false

/-- A Python counting dict `{key: count}` in insertion order. -/
def CountMap := List (Json × Nat)

/-- Python `m.get(k, 0)`. -/
def mapGetD : CountMap → Json → Nat
  | [], _ => 0
  | (k', v) :: rest, k => if flatEq k' k then v else mapGetD rest k

/-- Python `m[k] = v`: update in place when the key exists, append
otherwise. -/
def mapSet : CountMap → Json → Nat → CountMap
  | [], k, v => [(k, v)]
  | (k', v') :: rest, k, v =>
    if flatEq k' k then (k', v) :: rest else (k', v') :: mapSet rest k v

/-- Python `m[k] = m.get(k, 0) + 1`; `TypeError` on unhashable keys. -/
def bump (m : CountMap) (k : Json) : Except Unit CountMap :=
  if jsonHashable k then .ok (mapSet m k (mapGetD m k + 1)) else .error ()

/-- Total of all counts in the dict. -/
def mapSum (m : CountMap) : Nat := (m.map Prod.snd).sum

/-- `collections.Counter(xs)` as a fold of `bump` (same counts, keys in
first-occurrence order). -/
def countFold : CountMap → List Json → Except Unit CountMap
  | m, [] => .ok m
  | m, k :: rest => do countFold (← bump m k) rest

/-- `Counter(all_templates)` of `check-bridge-contracts.py`. -/
def countAll (ts : List Json) : Except Unit CountMap := countFold [] ts

/-! ## check-acs.py -/

/-- The inner `for key, val in ce.items()` loop of `check-acs.py` (lines
39-48): on the first value that is a dict containing `"createdEvent"` it
takes `val["createdEvent"]`; otherwise, on the key `"createdEvent"` itself it
takes `val`; `none` means the loop fell through to its `else` clause. -/
def acsLocate : List (String × Json) → Option Json
  | [] => none
  | (k, v) :: rest =>
    match v with
    | .obj fs2 =>
      match lookupField fs2 "createdEvent" with
      | some ev => some ev
      | none => if k = "createdEvent" then some v else acsLocate rest
    | _ => if k = "createdEvent" then some v else acsLocate rest

/-- `check-acs.py`: `ce = c["contractEntry"]` followed by the located
`createdEvent` candidate (`none` when `ce` is not a dict or the loop found
nothing). -/
def acsLocateEntry (entry : Json) : Except Unit (Option Json) := do
  let ce ← pyIndexStr entry "contractEntry"
  match ce with
  | .obj fs => pure (acsLocate fs)
  | _ => pure none

/-- `check-acs.py` lines 38-50: the template bucket key chosen for one
contract's `contractEntry` value; `none` when `ce` is not a dict (the whole
`if isinstance(ce, dict)` block is skipped and nothing is counted). -/
def acsTid (ce : Json) : Except Unit (Option Json) :=
  match ce with
  | .obj fs =>
    match acsLocate fs with
    | some target => Except.map some (pyGet target "templateId" (.str "unknown"))
    | none => .ok (some (.str (pyStrKeys (fs.map Prod.fst))))
  | _ => .ok none

/-- One iteration of the `for c in contracts` loop of `check-acs.py`. -/
def acsStep (m : CountMap) (c : Json) : Except Unit CountMap := do
  let ce ← pyIndexStr c "contractEntry"
  match ← acsTid ce with
  | some tid => bump m tid
  | none => .ok m

/-- The whole `for c in contracts` loop. -/
def acsFold : CountMap → List Json → Except Unit CountMap
  | m, [] => .ok m
  | m, c :: rest => do acsFold (← acsStep m c) rest

/-- `contracts = [e for e in data if "contractEntry" in e]`. -/
def filterContracts : List Json → Except Unit (List Json)
  | [] => .ok []
  | e :: rest => do
    let b ← pyIn "contractEntry" e
    let r ← filterContracts rest
    pure (if b then e :: r else r)

/-- `check-acs.py` lines 34-52: the `templates` counting dict built from a
decoded top-level array. -/
def checkAcsTemplates (entries : List Json) : Except Unit CountMap := do
  let contracts ← filterContracts entries
  acsFold [] contracts

/-- What `check-acs.py` reports for each top-level response shape. -/
inductive AcsReport where
  | contracts (m : CountMap)
  | apiError (code cause : Json)
  | dump (fs : List (String × Json))
  | unexpected

/-- `check-acs.py` lines 34-62: dispatch on the decoded response's top-level
type (list / dict with `"code"` / other dict / anything else). -/
def checkAcsDispatch : Json → Except Unit AcsReport
  | .arr es => Except.map .contracts (checkAcsTemplates es)
  | .obj fs =>
    if hasKeyObj fs "code" then
      .ok (.apiError ((lookupField fs "code").getD .null)
        ((lookupField fs "cause").getD (.str "")))
    else
      .ok (.dump fs)
  | _ => .ok .unexpected

/-- `json.loads(r.read())["offset"]` from the ledger-end step. -/
def ledgerEndOffset (resp : Json) : Except Unit Json :=
  pyIndexStr resp "offset"

/-! ## check-bridge-contracts.py -/

/-- `check-bridge-contracts.py` lines 41-46: how the decoded response is
turned into the `entries` list (`data.get("result", [])` on dicts, the list
itself, `[]` otherwise). -/
def bridgeEntries : Json → Json
  | .obj fs => (lookupField fs "result").getD (.arr [])
  | .arr xs => .arr xs
  | _ => .arr []

/-- `check-bridge-contracts.py` lines 55-58: locate a `createdEvent` for one
entry (`entry.get("contractEntry", {}).get("JsActiveContract", {})`, skip
when falsy, then `.get("createdEvent", {})`). -/
def bridgeLocate (entry : Json) : Except Unit (Option Json) := do
  let cew ← pyGet entry "contractEntry" (.obj [])
  let ac ← pyGet cew "JsActiveContract" (.obj [])
  if pyTruthy ac then
    let ce ← pyGet ac "createdEvent" (.obj [])
    pure (some ce)
  else
    pure none

/-- `check-bridge-contracts.py` lines 55-63: the `templateId` appended to
`all_templates` for one entry (`none` when the entry was skipped). -/
def bridgeTid (entry : Json) : Except Unit (Option Json) := do
  match ← bridgeLocate entry with
  | none => pure none
  | some ce => do
    let tid ← pyGet ce "templateId" (.str "?")
    let _args ← pyGet ce "createArgument" (.obj [])
    let _cid ← pyGet ce "contractId" (.str "?")
    pure (some tid)

/-- The whole `for entry in entries` loop: the `all_templates` list. -/
def bridgeAllTemplates : List Json → Except Unit (List Json)
  | [] => .ok []
  | e :: rest => do
    let t ← bridgeTid e
    let ts ← bridgeAllTemplates rest
    pure (match t with
      | some tid => tid :: ts
      | none => ts)

/-- `Counter(all_templates)` over the collected template ids. -/
def bridgeTemplates (entries : List Json) : Except Unit CountMap := do
  let ts ← bridgeAllTemplates entries
  countAll ts

/-! ## query-acs.py -/

/-- `query-acs.py` lines 36-50, for one line of the response text: the body
of the `try` block.  A line is modeled by its `json.loads` outcome (`none`
when decoding raises); any exception inside the block is swallowed by
`except Exception: pass`, yielding `none`. -/
def entryTuple (d : Json) : Except Unit (Json × Json × Json) := do
  let ce ← pyIndexStr d "contractEntry"
  let evt ← pyGet ce "createdEvent" (.obj [])
  let cid ← pyGet evt "contractId" (.str "?")
  let tid ← pyGet evt "templateId" (.str "?")
  let pkg ← pyGet evt "packageName" (.str "?")
  pure (cid, tid, pkg)

/-- One line of `data.strip().split("\n")`: the `(cid, tid, pkg)` record
appended to `contracts`, or `none` when the line is skipped (decode failure,
no `"contractEntry"`, or any exception swallowed by the bare `except`). -/
def queryAcsLine : Option Json → Option (Json × Json × Json)
  | none => none
  | some d =>
    match pyIn "contractEntry" d with
    | .error _ => none
    | .ok false => none
    | .ok true =>
      match entryTuple d with
      | .error _ => none
      | .ok r => some r

/-- The whole per-line loop of `query_acs`: the `contracts` list. -/
def queryAcsContracts (lines : List (Option Json)) : List (Json × Json × Json) :=
  lines.filterMap queryAcsLine

/-! ## bootstrap-http.py -/

/-- `USER_ID` constant of `bootstrap-http.py`. -/
def USER_ID : String := "administrator"

/-- `PACKAGE_ID` constant of `bootstrap-http.py`. -/
def PACKAGE_ID : String :=
  "eff3bf30edb508b2d052f969203db972e59c66e974344ed43016cfccfa618f06"

/-- A Python value passed for `act_as` / `read_as`: a single party string, a
list of party strings, or `None` (the `create_contract` default). -/
inductive PyArg where
  | strA (s : String)
  | listA (xs : List String)
  | noneA

/-- `act_as if isinstance(act_as, list) else [act_as]`. -/
def actAsField : PyArg → List Json
  | .listA xs => xs.map .str
  | .strA s => [.str s]
  | .noneA => [.null]

/-- `read_as if isinstance(read_as, list) else []`. -/
def readAsField : PyArg → List Json
  | .listA xs => xs.map .str
  | .strA _ => []
  | .noneA => []

/-- The request body built by `submit` (lines 19-25). -/
def submitBody (act_as read_as : PyArg) (commands : List Json) (cid : String) : Json :=
  .obj [("userId", .str USER_ID),
        ("actAs", .arr (actAsField act_as)),
        ("readAs", .arr (readAsField read_as)),
        ("commandId", .str cid),
        ("commands", .arr commands)]

/-- Outcome of `urllib.request.urlopen` on the submit request, as the script
can observe it: a 2xx response whose body may or may not decode as JSON, an
`urllib.error.HTTPError` carrying the error body, or a connection-level
`urllib.error.URLError` (e.g. connection refused). -/
inductive Transport where
  | success (parsed : Option Json)
  | httpError (body : String)
  | urlError

/-- `submit` lines 26-38: only `urllib.error.HTTPError` is caught and turned
into `(False, err)`; a decode failure of a 2xx body and a connection-level
`URLError` both escape the `try` and propagate to the caller (`.error`). -/
def submitOutcome : Transport → Except Unit (Bool × Json)
  | .success (some j) => .ok (true, j)
  | .success none => .error ()
  | .httpError e => .ok (false, .str e)
  | .urlError => .error ()

/-- The whole of `submit`: build the body, send it (the transport is an
oracle from the request body to its outcome), return the result tuple. -/
def submit (act_as read_as : PyArg) (commands : List Json) (cid : String)
    (transport : Json → Transport) : Except Unit (Bool × Json) :=
  submitOutcome (transport (submitBody act_as read_as commands cid))

/-- The `createCommand` envelope built by `create_contract` (lines 41-50). -/
def createCommandJson (module entity : String) (payload : Json) : Json :=
  .obj [("createCommand",
    .obj [("templateId",
            .obj [("packageId", .str PACKAGE_ID),
                  ("moduleName", .str module),
                  ("entityName", .str entity)]),
          ("createArgument", payload)])]

/-- Python `read_as or []` in `create_contract`: falsy values become the
empty list. -/
def pyOrEmptyList : PyArg → PyArg
  | .noneA => .listA []
  | .strA s => if s = "" then .listA [] else .strA s
  | .listA xs =>
    match xs with
    | [] => .listA []
    | _ => .listA xs

/-- `create_contract` (lines 40-51): `submit(act_as, read_as or [], [cmd])`. -/
def create_contract (module entity : String) (payload : Json)
    (act_as read_as : PyArg) (cid : String) (transport : Json → Transport) :
    Except Unit (Bool × Json) :=
  submit act_as (pyOrEmptyList read_as) [createCommandJson module entity payload]
    cid transport

/-- ASCII character of a decimal digit. -/
def digitCh (d : Nat) : Char := Char.ofNat (48 + d)

/-- Decimal rendering of a natural number, as Python's `f"{n}"` prints it:
most-significant digit first, `"0"` for zero. -/
def decRepr (n : Nat) : List Char :=
  if n = 0 then ['0'] else ((Nat.digits 10 n).reverse).map digitCh

/-- `cmd_id` of `bootstrap-http.py` (lines 15-16):
`f"init-{int(time.time())}-{suffix}"` where `t` is the whole-seconds
timestamp and `suffix` the 6 random lowercase letters. -/
def cmd_id (t : Nat) (suffix : List Char) : String :=
  ⟨"init-".data ++ decRepr t ++ '-' :: suffix⟩

/-- Modelled from the spec claim's words ("the timestamp (whole seconds)
concatenated with a random 6-letter lowercase suffix"): the identifier the
claim describes, with no other characters. -/
def cmdIdPerClaim (t : Nat) (suffix : List Char) : String :=
  ⟨decRepr t ++ suffix⟩

/-! ## coverage_report.py -/

/-- One component of the coverage map: statement hits `s`, branch hit lists
`b`, function hits `f`, exactly the three dicts read by
`coverage_report.py` lines 23-26. -/
structure CovInfo where
  s : List (String × Int)
  b : List (String × List Int)
  f : List (String × Int)

/-- `total_s = len(s)`. -/
def total_s (c : CovInfo) : Nat := c.s.length

/-- `hit_s = sum(1 for v in s.values() if v > 0) if total_s else 0`. -/
def hit_s (c : CovInfo) : Nat :=
  if total_s c = 0 then 0 else (c.s.map Prod.snd).countP fun v => decide (0 < v)

/-- `total_b = sum(len(v) for v in b.values())`. -/
def total_b (c : CovInfo) : Nat := (c.b.map fun p => p.2.length).sum

/-- `hit_b = sum(1 for blist in b.values() for v in blist if v > 0) if total_b else 0`. -/
def hit_b (c : CovInfo) : Nat :=
  if total_b c = 0 then 0 else ((c.b.map Prod.snd).flatten).countP fun v => decide (0 < v)

/-- `total_f = len(f)`. -/
def total_f (c : CovInfo) : Nat := c.f.length

/-- `hit_f = sum(1 for v in f.values() if v > 0) if total_f else 0`. -/
def hit_f (c : CovInfo) : Nat :=
  if total_f c = 0 then 0 else (c.f.map Prod.snd).countP fun v => decide (0 < v)

/-- `(hit / total * 100) if total else 0`, the formula used for all three
percentages (rational arithmetic stands in for Python floats). -/
def pct (hit total : Nat) : ℚ :=
  if total = 0 then 0 else (hit : ℚ) / (total : ℚ) * 100

/-- `pct_s`. -/
def pct_s (c : CovInfo) : ℚ := pct (hit_s c) (total_s c)

/-- `pct_b`. -/
def pct_b (c : CovInfo) : ℚ := pct (hit_b c) (total_b c)

/-- `pct_f`. -/
def pct_f (c : CovInfo) : ℚ := pct (hit_f c) (total_f c)

/-! ## Envelope shapes and concrete scenario data -/

/-- Entry with the `createdEvent` directly under `contractEntry`. -/
def shapeFlat (ev : Json) : Json :=
  .obj [("contractEntry", .obj [("createdEvent", ev)])]

/-- Entry with the `createdEvent` under `contractEntry.JsActiveContract`. -/
def shapeJs (ev : Json) : Json :=
  .obj [("contractEntry", .obj [("JsActiveContract", .obj [("createdEvent", ev)])])]

/-- Entry with the `createdEvent` under an arbitrary wrapper key inside
`contractEntry` (the dynamic per-party variant). -/
def shapeDyn (key : String) (ev : Json) : Json :=
  .obj [("contractEntry", .obj [(key, .obj [("createdEvent", ev)])])]

/-- The `BridgeService` created event of the spec's end-to-end scenario. -/
def evBridge : Json :=
  .obj [("templateId", .str "pkg:Mod:BridgeService"),
        ("contractId", .str "c1"),
        ("createArgument", .obj [("paused", .bool false)])]

/-- The `Token` created event of the spec's end-to-end scenario. -/
def evToken : Json :=
  .obj [("templateId", .str "pkg:Mod:Token"),
        ("contractId", .str "c2"),
        ("createArgument", .obj [("amount", .str "5.0")])]

/-- Scenario entry one: `BridgeService` wrapped under `JsActiveContract`. -/
def entryJsAC : Json := shapeJs evBridge

/-- Scenario entry two: `Token` wrapped directly under `contractEntry`. -/
def entryFlat : Json := shapeFlat evToken

/-- A well-formed contract entry in the flat shape carrying the fields
`query-acs.py` reads. -/
def qEntry : Json :=
  .obj [("contractEntry",
    .obj [("createdEvent",
      .obj [("contractId", .str "c9"),
            ("templateId", .str "pkg:Mod:Token"),
            ("packageName", .str "ble")])])]

/-! ## Counting helper lemmas -/

lemma exceptBind_err {α β : Type} (e : Unit) (f : α → Except Unit β) :
    (Except.error e >>= f) = Except.error e := rfl

lemma exceptBind_ok {α β : Type} (a : α) (f : α → Except Unit β) :
    (Except.ok a >>= f) = f a := rfl

lemma mapSum_cons (k : Json) (v : Nat) (rest : CountMap) :
    mapSum ((k, v) :: rest) = v + mapSum rest := by
  simp [mapSum]

lemma mapSet_bump_sum (m : CountMap) (k : Json) :
    mapSum (mapSet m k (mapGetD m k + 1)) = mapSum m + 1 := by
  induction m with
  | nil => simp [mapSet, mapGetD, mapSum]
  | cons hd rest ih =>
    obtain ⟨k', v'⟩ := hd
    by_cases h : flatEq k' k
    · simp [mapSet, mapGetD, h, mapSum_cons]
      omega
    · simp [mapSet, mapGetD, h, mapSum_cons] at ih ⊢
      omega

lemma bump_sum {m m' : CountMap} {k : Json} (h : bump m k = .ok m') :
    mapSum m' = mapSum m + 1 := by
  unfold bump at h
  by_cases hk : jsonHashable k
  · simp [hk] at h
    subst h
    exact mapSet_bump_sum m k
  · simp [hk] at h

lemma countFold_sum :
    ∀ (ts : List Json) (m0 m : CountMap), countFold m0 ts = .ok m →
      mapSum m = mapSum m0 + ts.length := by
  intro ts
  induction ts with
  | nil =>
    intro m0 m h
    simp [countFold] at h
    subst h
    simp
  | cons t rest ih =>
    intro m0 m h
    unfold countFold at h
    cases hb : bump m0 t with
    | error e => simp [hb, exceptBind_err] at h
    | ok m1 =>
      simp only [hb, exceptBind_ok] at h
      have := ih m1 m h
      rw [this, bump_sum hb, List.length_cons]
      omega

lemma acsStep_sum {m m' : CountMap} {c : Json} {fs : List (String × Json)}
    (hce : pyIndexStr c "contractEntry" = .ok (.obj fs))
    (h : acsStep m c = .ok m') : mapSum m' = mapSum m + 1 := by
  unfold acsStep at h
  rw [hce, exceptBind_ok] at h
  cases hloc : acsLocate fs with
  | none =>
    have ht : acsTid (Json.obj fs) = .ok (some (.str (pyStrKeys (fs.map Prod.fst)))) := by
      simp [acsTid, hloc]
    rw [ht, exceptBind_ok] at h
    exact bump_sum h
  | some target =>
    cases hg : pyGet target "templateId" (.str "unknown") with
    | error e =>
      have ht : acsTid (Json.obj fs) = .error e := by
        simp [acsTid, hloc, hg, Except.map]
      rw [ht, exceptBind_err] at h
      simp at h
    | ok tid =>
      have ht : acsTid (Json.obj fs) = .ok (some tid) := by
        simp [acsTid, hloc, hg, Except.map]
      rw [ht, exceptBind_ok] at h
      exact bump_sum h

lemma acsFold_sum :
    ∀ (cs : List Json) (m0 m : CountMap),
      (∀ c ∈ cs, ∃ fs, pyIndexStr c "contractEntry" = .ok (Json.obj fs)) →
      acsFold m0 cs = .ok m → mapSum m = mapSum m0 + cs.length := by
  intro cs
  induction cs with
  | nil =>
    intro m0 m _ h
    simp [acsFold] at h
    subst h
    simp
  | cons c rest ih =>
    intro m0 m hwf h
    unfold acsFold at h
    cases hs : acsStep m0 c with
    | error e => simp [hs, exceptBind_err] at h
    | ok m1 =>
      rw [hs, exceptBind_ok] at h
      obtain ⟨fs, hfs⟩ := hwf c (by simp)
      have h1 := acsStep_sum hfs hs
      have h2 := ih m1 m (fun c' hc' => hwf c' (by simp [hc'])) h
      rw [h2, h1, List.length_cons]
      omega

/-! ## Claim theorems -/

/-- C1 (amended): `check-acs.py`'s extraction locates the same `createdEvent`
record under all three envelope variants (flat `createdEvent`, under
`JsActiveContract`, and under an arbitrary per-party wrapper key), provided
the event record does not itself contain a `createdEvent` key;
`check-bridge-contracts.py`'s extraction locates it only under the
`JsActiveContract` variant and locates nothing for the flat variant. -/
theorem C1_shape_tolerance (efs : List (String × Json)) (key : String)
    (hno : lookupField efs "createdEvent" = none) :
    (acsLocateEntry (shapeFlat (.obj efs)) = .ok (some (.obj efs)) ∧
     acsLocateEntry (shapeJs (.obj efs)) = .ok (some (.obj efs)) ∧
     acsLocateEntry (shapeDyn key (.obj efs)) = .ok (some (.obj efs))) ∧
    (bridgeLocate (shapeJs (.obj efs)) = .ok (some (.obj efs)) ∧
     bridgeLocate (shapeFlat (.obj efs)) = .ok none) := by
  refine ⟨⟨?_, rfl, rfl⟩, rfl, rfl⟩
  show Except.ok (acsLocate [("createdEvent", Json.obj efs)]) = .ok (some (.obj efs))
  simp [acsLocate, hno]

/-- C1 witness: concrete instantiation of the amended shape-tolerance
theorem at a one-field created event and a per-party wrapper key. -/
theorem C1_witness :
    (acsLocateEntry (shapeFlat (.obj [("templateId", Json.str "pkg:Mod:Token")])) =
       .ok (some (.obj [("templateId", Json.str "pkg:Mod:Token")])) ∧
     acsLocateEntry (shapeJs (.obj [("templateId", Json.str "pkg:Mod:Token")])) =
       .ok (some (.obj [("templateId", Json.str "pkg:Mod:Token")])) ∧
     acsLocateEntry (shapeDyn "party::abc" (.obj [("templateId", Json.str "pkg:Mod:Token")])) =
       .ok (some (.obj [("templateId", Json.str "pkg:Mod:Token")]))) ∧
    (bridgeLocate (shapeJs (.obj [("templateId", Json.str "pkg:Mod:Token")])) =
       .ok (some (.obj [("templateId", Json.str "pkg:Mod:Token")])) ∧
     bridgeLocate (shapeFlat (.obj [("templateId", Json.str "pkg:Mod:Token")])) = .ok none) :=
  C1_shape_tolerance [("templateId", Json.str "pkg:Mod:Token")] "party::abc" rfl

/-- C1 counterexample: on a flat-variant entry, `check-bridge-contracts.py`'s
extraction locates no `createdEvent` at all, while `check-acs.py`'s locates
the wrapped record — so the three scripts' extraction logic does not locate
the same `createdEvent` regardless of wrapper shape. -/
theorem C1_counterexample :
    bridgeLocate entryFlat = .ok none ∧
    acsLocateEntry entryFlat = .ok (some evToken) :=
  ⟨rfl, rfl⟩

/-- C2 (amended): in `check-acs.py`, for contracts whose `contractEntry`
value is a JSON object, the per-template counts sum to the number of
contracts (each such contract lands in exactly one bucket, counting the
fallback bucket); in `check-bridge-contracts.py`, the counter sums to the
length of the `all_templates` list, i.e. only to the number of entries
recognized under `JsActiveContract`, not to the total entry count. -/
theorem C2_sum_counts :
    (∀ (cs : List Json) (m : CountMap),
      (∀ c ∈ cs, ∃ fs, pyIndexStr c "contractEntry" = .ok (Json.obj fs)) →
      acsFold [] cs = .ok m → mapSum m = cs.length) ∧
    (∀ (ts : List Json) (m : CountMap),
      countAll ts = .ok m → mapSum m = ts.length) := by
  constructor
  · intro cs m hwf h
    have := acsFold_sum cs [] m hwf h
    simpa [mapSum] using this
  · intro ts m h
    have := countFold_sum ts [] m h
    simpa [mapSum] using this

/-- C2 witness: the two-entry scenario list has both `contractEntry` values
as objects, and its per-template counts sum to its length. -/
theorem C2_witness :
    mapSum [(Json.str "pkg:Mod:BridgeService", 1), (Json.str "pkg:Mod:Token", 1)] =
      [entryJsAC, entryFlat].length :=
  C2_sum_counts.1 [entryJsAC, entryFlat]
    [(Json.str "pkg:Mod:BridgeService", 1), (Json.str "pkg:Mod:Token", 1)]
    (by
      intro c hc
      simp only [List.mem_cons, List.not_mem_nil, or_false] at hc
      rcases hc with rfl | rfl
      · exact ⟨[("JsActiveContract", Json.obj [("createdEvent", evBridge)])], rfl⟩
      · exact ⟨[("createdEvent", evToken)], rfl⟩)
    rfl

/-- C2 counterexample: `check-bridge-contracts.py` applied to the one-entry
list holding a well-formed flat-variant contract entry produces an empty
counter, whose counts sum to 0, not to the total entry count 1. -/
theorem C2_counterexample :
    bridgeTemplates [entryFlat] = .ok [] ∧ mapSum [] ≠ [entryFlat].length := by
  exact ⟨rfl, by decide⟩

/-- C3: on the mocked ledger-end response and the two-entry active-contracts
response of the spec's end-to-end scenario, `check-acs.py`'s logic extracts
offset 42, counts exactly one `BridgeService` and one `Token` contract, and
the located created events still carry their original `createArgument`
payloads. -/
theorem C3_scenario :
    ledgerEndOffset (.obj [("offset", .num 42)]) = .ok (.num 42) ∧
    checkAcsTemplates [entryJsAC, entryFlat] =
      .ok [(.str "pkg:Mod:BridgeService", 1), (.str "pkg:Mod:Token", 1)] ∧
    acsLocateEntry entryJsAC = .ok (some evBridge) ∧
    acsLocateEntry entryFlat = .ok (some evToken) ∧
    pyGet evBridge "createArgument" (.obj []) = .ok (.obj [("paused", .bool false)]) ∧
    pyGet evToken "createArgument" (.obj []) = .ok (.obj [("amount", .str "5.0")]) :=
  ⟨rfl, rfl, rfl, rfl, rfl, rfl⟩

/-- C4 (amended): in `submit`, an HTTP-status failure (`HTTPError`) is
caught and reported as `(False, error body)`, and a 2xx response whose body
decodes is reported as `(True, parsed response)`; but a connection-level
transport failure (`URLError`, e.g. connection refused) is not caught and
propagates out of `submit`, as does a decode failure of a 2xx body. -/
theorem C4_submit_outcomes (a r : PyArg) (cmds : List Json) (cid : String) :
    (∀ e : String, submit a r cmds cid (fun _ => .httpError e) = .ok (false, .str e)) ∧
    (∀ j : Json, submit a r cmds cid (fun _ => .success (some j)) = .ok (true, j)) ∧
    submit a r cmds cid (fun _ => .success none) = .error () ∧
    submit a r cmds cid (fun _ => .urlError) = .error () :=
  ⟨fun _ => rfl, fun _ => rfl, rfl, rfl⟩

/-- C4 counterexample: a connection-level transport failure during a
concrete submission is not turned into a failure tuple; the exception
propagates to the caller. -/
theorem C4_counterexample :
    submit (.strA "minted-operator") (.listA []) [] "init-0-aaaaaa"
      (fun _ => .urlError) = .error () :=
  rfl

/-- C5 (amended): `query-acs.py`'s parsing handles the newline-delimited
shape — a line holding one contract entry yields exactly that entry's
`(contractId, templateId, packageName)` record — but a line holding a single
JSON array (the other response shape) always yields nothing, whatever the
array contains. -/
theorem C5_shape_handling :
    (∀ (efs : List (String × Json)) (cidv tidv pkgv : Json),
      lookupField efs "contractId" = some cidv →
      lookupField efs "templateId" = some tidv →
      lookupField efs "packageName" = some pkgv →
      queryAcsLine (some (shapeFlat (.obj efs))) = some (cidv, tidv, pkgv)) ∧
    (∀ xs : List Json, queryAcsLine (some (.arr xs)) = none) := by
  constructor
  · intro efs cidv tidv pkgv h1 h2 h3
    simp [queryAcsLine, entryTuple, shapeFlat, pyIn, pyIndexStr, pyGet, hasKeyObj,
      lookupField, exceptBind_ok, h1, h2, h3]
  · intro xs
    cases hb : xs.any fun j => jsonIsStr j "contractEntry" <;>
      simp [queryAcsLine, pyIn, hb, entryTuple, pyIndexStr, exceptBind_err]

/-- C5 witness: the NDJSON conjunct applied to a concrete three-field
created event. -/
theorem C5_witness :
    queryAcsLine (some (shapeFlat (.obj [("contractId", Json.str "c9"),
        ("templateId", Json.str "pkg:Mod:Token"), ("packageName", Json.str "ble")]))) =
      some (Json.str "c9", Json.str "pkg:Mod:Token", Json.str "ble") :=
  C5_shape_handling.1 [("contractId", Json.str "c9"),
    ("templateId", Json.str "pkg:Mod:Token"), ("packageName", Json.str "ble")]
    (Json.str "c9") (Json.str "pkg:Mod:Token") (Json.str "ble") rfl rfl rfl

/-- C5 counterexample: the same well-formed contract entry is extracted when
it arrives as its own newline-delimited record, but is not extracted at all
when the response arrives as a single JSON array containing it — so the
parsing logic does not extract the entries correctly in both shapes. -/
theorem C5_counterexample :
    queryAcsContracts [some (Json.arr [qEntry])] = [] ∧
    queryAcsContracts [some qEntry] =
      [(Json.str "c9", Json.str "pkg:Mod:Token", Json.str "ble")] :=
  ⟨rfl, rfl⟩

/-- C8 (amended): in `query-acs.py` a record that fails to decode (or raises
while being probed) is silently skipped and the remaining records are still
processed — a partial result is recovered rather than the script stopping —
while `check-acs.py` reports an unexpected top-level shape and ends. -/
theorem C8_skip_behavior :
    (∀ rest : List (Option Json), queryAcsContracts (none :: rest) = queryAcsContracts rest) ∧
    (∀ s : String, checkAcsDispatch (.str s) = .ok .unexpected) :=
  ⟨fun _ => rfl, fun _ => rfl⟩

/-- C8 counterexample: a response with one malformed line followed by one
well-formed contract entry yields that entry's record — the malformed record
was silently skipped and a partial result recovered, instead of the script
stopping at that point. -/
theorem C8_counterexample :
    queryAcsContracts [none, some qEntry] =
      [(Json.str "c9", Json.str "pkg:Mod:Token", Json.str "ble")] :=
  rfl

/-- C9: `submit` normalizes its party arguments asymmetrically — a scalar
(string) `act_as` is wrapped into a one-element list, but a scalar `read_as`
is replaced by the empty list and thus silently discarded, while list-valued
arguments pass through unchanged on both sides. -/
theorem C9_party_normalization (s r : String) (xs ys : List String)
    (cmds : List Json) (cid : String) :
    pyIndexStr (submitBody (.strA s) (.strA r) cmds cid) "actAs" = .ok (.arr [.str s]) ∧
    pyIndexStr (submitBody (.strA s) (.strA r) cmds cid) "readAs" = .ok (.arr []) ∧
    pyIndexStr (submitBody (.listA xs) (.listA ys) cmds cid) "actAs" =
      .ok (.arr (xs.map .str)) ∧
    pyIndexStr (submitBody (.listA xs) (.listA ys) cmds cid) "readAs" =
      .ok (.arr (ys.map .str)) :=
  ⟨rfl, rfl, rfl, rfl⟩

/-! ## Coverage helper lemmas -/

lemma hit_s_le (c : CovInfo) : hit_s c ≤ total_s c := by
  unfold hit_s
  split
  · exact Nat.zero_le _
  · calc (c.s.map Prod.snd).countP (fun v => decide (0 < v))
        ≤ (c.s.map Prod.snd).length := List.countP_le_length _
      _ = total_s c := by simp [total_s]

lemma hit_f_le (c : CovInfo) : hit_f c ≤ total_f c := by
  unfold hit_f
  split
  · exact Nat.zero_le _
  · calc (c.f.map Prod.snd).countP (fun v => decide (0 < v))
        ≤ (c.f.map Prod.snd).length := List.countP_le_length _
      _ = total_f c := by simp [total_f]

lemma hit_b_le (c : CovInfo) : hit_b c ≤ total_b c := by
  unfold hit_b
  split
  · exact Nat.zero_le _
  · calc ((c.b.map Prod.snd).flatten).countP (fun v => decide (0 < v))
        ≤ ((c.b.map Prod.snd).flatten).length := List.countP_le_length _
      _ = total_b c := by
          simp only [List.length_flatten, total_b, List.map_map]
          rfl

lemma pct_nonneg (hit total : Nat) : 0 ≤ pct hit total := by
  unfold pct
  split
  · exact le_refl 0
  · positivity

lemma pct_le_100 {hit total : Nat} (hle : hit ≤ total) : pct hit total ≤ 100 := by
  unfold pct
  split
  · norm_num
  · rename_i ht
    have htp : (0 : ℚ) < (total : ℚ) := by
      exact_mod_cast Nat.pos_of_ne_zero ht
    have h1 : (hit : ℚ) / (total : ℚ) ≤ 1 := by
      rw [div_le_one htp]
      exact_mod_cast hle
    calc (hit : ℚ) / (total : ℚ) * 100 ≤ 1 * 100 := by
          exact mul_le_mul_of_nonneg_right h1 (by norm_num)
      _ = 100 := by norm_num

/-- C6: for every coverage component, the computed statement percentage is
`hit / total * 100` whenever the statement total is nonzero, and is 0 (no
division performed) when the total is zero; likewise for the branch and
function percentages. -/
theorem C6_pct_formula (c : CovInfo) :
    ((total_s c ≠ 0 → pct_s c = (hit_s c : ℚ) / (total_s c : ℚ) * 100) ∧
     (total_s c = 0 → pct_s c = 0)) ∧
    ((total_b c ≠ 0 → pct_b c = (hit_b c : ℚ) / (total_b c : ℚ) * 100) ∧
     (total_b c = 0 → pct_b c = 0)) ∧
    ((total_f c ≠ 0 → pct_f c = (hit_f c : ℚ) / (total_f c : ℚ) * 100) ∧
     (total_f c = 0 → pct_f c = 0)) := by
  refine ⟨⟨?_, ?_⟩, ⟨?_, ?_⟩, ⟨?_, ?_⟩⟩ <;> intro h <;>
    simp [pct_s, pct_b, pct_f, pct, h]

/-- A concrete coverage component: two statements of which one is hit, no
branches, no functions. -/
def covEx : CovInfo := ⟨[("0", 1), ("1", 0)], [], []⟩

/-- C6 witness: on the concrete component, the statement percentage follows
the division formula (total 2 is nonzero) and the branch percentage is 0
(total 0). -/
theorem C6_witness :
    pct_s covEx = (hit_s covEx : ℚ) / (total_s covEx : ℚ) * 100 ∧ pct_b covEx = 0 :=
  ⟨(C6_pct_formula covEx).1.1 (by decide), (C6_pct_formula covEx).2.1.2 rfl⟩

/-- C10: for every coverage component, each hit count is at most its total,
and each of the three computed percentages lies between 0 and 100
inclusive (the zero-total case yielding 0). -/
theorem C10_pct_ranges (c : CovInfo) :
    (hit_s c ≤ total_s c ∧ 0 ≤ pct_s c ∧ pct_s c ≤ 100) ∧
    (hit_b c ≤ total_b c ∧ 0 ≤ pct_b c ∧ pct_b c ≤ 100) ∧
    (hit_f c ≤ total_f c ∧ 0 ≤ pct_f c ∧ pct_f c ≤ 100) :=
  ⟨⟨hit_s_le c, pct_nonneg _ _, pct_le_100 (hit_s_le c)⟩,
   ⟨hit_b_le c, pct_nonneg _ _, pct_le_100 (hit_b_le c)⟩,
   ⟨hit_f_le c, pct_nonneg _ _, pct_le_100 (hit_f_le c)⟩⟩

/-! ## Command-id helper lemmas -/

lemma digitCh_inj {d e : Nat} (hd : d < 10) (he : e < 10)
    (h : digitCh d = digitCh e) : d = e := by
  interval_cases d <;> interval_cases e <;> revert h <;> decide

lemma digitCh_ne_dash {d : Nat} (hd : d < 10) : digitCh d ≠ '-' := by
  interval_cases d <;> decide

lemma dash_not_mem_decRepr (n : Nat) : '-' ∉ decRepr n := by
  unfold decRepr
  split
  · decide
  · intro hmem
    simp only [List.mem_map, List.mem_reverse] at hmem
    obtain ⟨d, hd, hch⟩ := hmem
    exact digitCh_ne_dash (Nat.digits_lt_base (by norm_num) hd) hch

lemma sepSplit :
    ∀ (xs zs ys ws : List Char), '-' ∉ xs → '-' ∉ zs →
      xs ++ '-' :: ys = zs ++ '-' :: ws → xs = zs ∧ ys = ws := by
  intro xs
  induction xs with
  | nil =>
    intro zs ys ws _ hz h
    cases zs with
    | nil =>
      simp only [List.nil_append, List.cons.injEq] at h
      exact ⟨rfl, h.2⟩
    | cons z zt =>
      simp only [List.nil_append, List.cons_append, List.cons.injEq] at h
      exact absurd (h.1 ▸ List.mem_cons_self z zt) hz
  | cons x xt ih =>
    intro zs ys ws hx hz h
    cases zs with
    | nil =>
      simp only [List.cons_append, List.nil_append, List.cons.injEq] at h
      exact absurd (h.1 ▸ List.mem_cons_self x xt) hx
    | cons z zt =>
      simp only [List.cons_append, List.cons.injEq] at h
      obtain ⟨hxz, h2⟩ := h
      have hrec := ih zt ys ws
        (fun hm => hx (List.mem_cons_of_mem _ hm))
        (fun hm => hz (List.mem_cons_of_mem _ hm)) h2
      exact ⟨by rw [hxz, hrec.1], hrec.2⟩

lemma mapDigitCh_inj :
    ∀ (xs ys : List Nat), (∀ d ∈ xs, d < 10) → (∀ d ∈ ys, d < 10) →
      xs.map digitCh = ys.map digitCh → xs = ys := by
  intro xs
  induction xs with
  | nil =>
    intro ys _ _ h
    cases ys with
    | nil => rfl
    | cons y yt => simp at h
  | cons x xt ih =>
    intro ys hx hy h
    cases ys with
    | nil => simp at h
    | cons y yt =>
      simp only [List.map_cons, List.cons.injEq] at h
      have hxy := digitCh_inj (hx x (by simp)) (hy y (by simp)) h.1
      have hrest := ih yt (fun d hd => hx d (by simp [hd]))
        (fun d hd => hy d (by simp [hd])) h.2
      rw [hxy, hrest]

lemma decRepr_inj : ∀ {m n : Nat}, decRepr m = decRepr n → m = n := by
  intro m n h
  unfold decRepr at h
  by_cases hm : m = 0 <;> by_cases hn : n = 0
  · omega
  · exfalso
    rw [if_pos hm, if_neg hn] at h
    have hlen := congrArg List.length h
    simp only [List.length_cons, List.length_nil, List.length_map,
      List.length_reverse] at hlen
    obtain ⟨d, hd⟩ := List.length_eq_one.mp hlen.symm
    rw [hd] at h
    simp only [List.reverse_cons, List.reverse_nil, List.nil_append,
      List.map_cons, List.map_nil, List.cons.injEq] at h
    have hdmem : d ∈ Nat.digits 10 n := by
      rw [hd]
      exact List.mem_cons_self d []
    have hd10 : d < 10 := Nat.digits_lt_base (by norm_num) hdmem
    have hch : digitCh d = digitCh 0 := by
      rw [← h.1]
      decide
    have hd0 : d = 0 := digitCh_inj hd10 (by norm_num) hch
    have := Nat.ofDigits_digits 10 n
    rw [hd, hd0] at this
    simp [Nat.ofDigits] at this
    exact hn this.symm
  · exfalso
    rw [if_neg hm, if_pos hn] at h
    have hlen := congrArg List.length h
    simp only [List.length_cons, List.length_nil, List.length_map,
      List.length_reverse] at hlen
    obtain ⟨d, hd⟩ := List.length_eq_one.mp hlen
    rw [hd] at h
    simp only [List.reverse_cons, List.reverse_nil, List.nil_append,
      List.map_cons, List.map_nil, List.cons.injEq] at h
    have hdmem : d ∈ Nat.digits 10 m := by
      rw [hd]
      exact List.mem_cons_self d []
    have hd10 : d < 10 := Nat.digits_lt_base (by norm_num) hdmem
    have hch : digitCh d = digitCh 0 := by
      rw [h.1]
      decide
    have hd0 : d = 0 := digitCh_inj hd10 (by norm_num) hch
    have := Nat.ofDigits_digits 10 m
    rw [hd, hd0] at this
    simp [Nat.ofDigits] at this
    exact hm this.symm
  · rw [if_neg hm, if_neg hn] at h
    have hdig : (Nat.digits 10 m).reverse = (Nat.digits 10 n).reverse :=
      mapDigitCh_inj _ _
        (fun d hd => Nat.digits_lt_base (by norm_num) (List.mem_reverse.mp hd))
        (fun d hd => Nat.digits_lt_base (by norm_num) (List.mem_reverse.mp hd)) h
    have := List.reverse_injective hdig
    have := congrArg (Nat.ofDigits 10) this
    rwa [Nat.ofDigits_digits, Nat.ofDigits_digits] at this

/-- C7 (amended): each generated command identifier is the literal prefix
`init-`, then the whole-seconds timestamp in decimal, a hyphen, and the
random lowercase suffix; the encoding is injective, so two identifiers
coincide only when both the second-resolution timestamps and the random
suffixes coincide — N rapid successive generations are pairwise distinct up
to simultaneous timestamp and suffix collision. -/
theorem C7_cmd_id_format (t t' : Nat) (s s' : List Char) :
    cmd_id t s = ⟨"init-".data ++ decRepr t ++ '-' :: s⟩ ∧
    (cmd_id t s = cmd_id t' s' → t = t' ∧ s = s') := by
  refine ⟨rfl, fun h => ?_⟩
  have hdata : "init-".data ++ (decRepr t ++ '-' :: s) =
      "init-".data ++ (decRepr t' ++ '-' :: s') := by
    have := congrArg String.data h
    simpa [cmd_id, List.append_assoc] using this
  have h2 := List.append_cancel_left hdata
  have h3 := sepSplit (decRepr t) (decRepr t') s s'
    (dash_not_mem_decRepr t) (dash_not_mem_decRepr t') h2
  exact ⟨decRepr_inj h3.1, h3.2⟩

/-- C7 witness: the format and injectivity theorem applied to the concrete
timestamp 3 with the concrete suffix `abcdef`. -/
theorem C7_witness : 3 = 3 ∧ "abcdef".data = "abcdef".data :=
  (C7_cmd_id_format 3 3 "abcdef".data "abcdef".data).2 rfl

/-- C7 counterexample: at timestamp 0 with suffix `aaaaaa`, the generated
identifier `init-0-aaaaaa` is not the timestamp concatenated with the
suffix (`0aaaaaa`), refuting the claim's description of the identifier's
form. -/
theorem C7_counterexample :
    cmd_id 0 "aaaaaa".data ≠ cmdIdPerClaim 0 "aaaaaa".data := by
  decide
